import Mathlib

/-!
Shallow embedding of the hackathon-product evaluation pipeline
(`src/python_backend/services/...`): the status store selection queries
(`db_manager.py`), the evaluator arithmetic (`idea_evaluator.py`), the
classifier parsing (`tcs_classifier.py`), the classification retry loop
(`classification_pipeline.py`), the extraction unit of work
(`orchestrator.py`) and the shared stage-runner loop shape.

Machine reals of the source are modelled as exact rationals; the Python
`int((i / total) * 100)` progress truncation is modelled as exact natural
floor division.  LLM calls and the relational store are modelled as
explicit inputs: a call result is an `Except`/response value supplied to
the function, a store is a `List Idea`, and a row update is a function
`Idea → Idea`.
-/

namespace HackPipe

/-- A stage status column of the work-item table: SQL `NULL` is `unset`;
the string statuses `'pending'`, `'completed'`, `'failed'`, `'no_files'`
are the remaining constructors. -/
inductive StageStatus
  | unset
  | pending
  | completed
  | failed
  | noFiles
deriving DecidableEq

/-- A row of the work-item table, with the columns read or written by the
pipeline code under verification. -/
structure Idea where
  id : Nat
  extraction_status : StageStatus := .unset
  classification_status : StageStatus := .unset
  evaluation_status : StageStatus := .unset
  extracted_files_content : Option String := none
  primary_theme : Option String := none
  secondary_themes : List String := []
  industry : Option String := none
  technologies : List String := []
  weighted_total_score : Option ℚ := none
  investment_recommendation : Option String := none
  rubric_scores : List (String × ℚ) := []
  key_strengths : List String := []
  key_concerns : List String := []
deriving DecidableEq

/-- `DatabaseManager.get_ideas_for_extraction` row predicate:
`extraction_status IS NULL OR extraction_status = 'pending'`. -/
def extraction_where (i : Idea) : Bool :=
  i.extraction_status == .unset || i.extraction_status == .pending

/-- `DatabaseManager.get_ideas_for_extraction`. -/
def get_ideas_for_extraction (db : List Idea) : List Idea :=
  db.filter extraction_where

/-- `DatabaseManager.get_ideas_for_classification` row predicate:
`extraction_status = 'completed' AND (classification_status IS NULL OR
classification_status = 'pending' OR classification_status = 'failed')`. -/
def classification_where (i : Idea) : Bool :=
  i.extraction_status == .completed &&
    (i.classification_status == .unset || i.classification_status == .pending ||
      i.classification_status == .failed)

/-- `DatabaseManager.get_ideas_for_classification`. -/
def get_ideas_for_classification (db : List Idea) : List Idea :=
  db.filter classification_where

/-- `DatabaseManager.get_ideas_for_evaluation` row predicate:
`classification_status = 'completed' AND (evaluation_status IS NULL OR
evaluation_status = 'pending' OR evaluation_status = 'failed')`. -/
def evaluation_where (i : Idea) : Bool :=
  i.classification_status == .completed &&
    (i.evaluation_status == .unset || i.evaluation_status == .pending ||
      i.evaluation_status == .failed)

/-- `DatabaseManager.get_ideas_for_evaluation`. -/
def get_ideas_for_evaluation (db : List Idea) : List Idea :=
  db.filter evaluation_where

/-- The spec's own-stage eligibility set {unset, pending, failed}
(claim side, for comparison with the SQL predicates above). -/
def spec_own_eligible (s : StageStatus) : Bool :=
  s == .unset || s == .pending || s == .failed

/-- Python `dict.get(k, d)` on an association list (first binding wins,
as for a Python dict there is at most one). -/
def dict_getD (m : List (String × ℚ)) (k : String) (d : ℚ) : ℚ :=
  match m.find? (fun p => p.1 == k) with
  | some p => p.2
  | none => d

/-- `IdeaEvaluator._calculate_weighted_total`: rubric-weighted mean of the
scores, `scores.get(rubric, 5.0)` defaulting a missing rubric to 5.0,
returning 0.0 when the total weight is zero. -/
def calculate_weighted_total (rubrics scores : List (String × ℚ)) : ℚ :=
  let total_weight := (rubrics.map Prod.snd).sum
  if total_weight = 0 then 0
  else (rubrics.map (fun p => dict_getD scores p.1 5 * p.2)).sum / total_weight

/-- `IdeaEvaluator._generate_recommendation`: fixed thresholds on the
weighted total. -/
def generate_recommendation (weighted_total : ℚ) : String :=
  if weighted_total ≥ 7.5 then "go"
  else if weighted_total ≥ 5.5 then "consider-with-mitigations"
  else "no-go"

/-- A numeric or non-numeric JSON score value: `num q` is a value Python
`float(...)` accepts, `invalid` is one on which `float(...)` raises
(`ValueError`/`TypeError`), which the source defaults to 5.0. -/
inductive ScoreJson
  | num (q : ℚ)
  | invalid
deriving DecidableEq

/-- The JSON object shape `IdeaEvaluator._parse_evaluation_response` probes
after a successful `json.loads`.  `none` for `scores` models the key being
absent or bound to a non-dict (the source replaces both with `{}`); `none`
for the two lists models the key being absent or bound to a non-list (the
source replaces both with `[]`). -/
structure RawEvaluation where
  scores : Option (List (String × ScoreJson))
  key_strengths : Option (List String)
  key_concerns : Option (List String)
deriving DecidableEq

/-- An LLM evaluation response text, abstracted to whether `json.loads`
succeeds: `unparseable` is any text raising `JSONDecodeError`, `parsed r`
is a decoded object of shape `r`. -/
inductive EvalResponse
  | unparseable
  | parsed (r : RawEvaluation)
deriving DecidableEq

/-- The cleaned evaluation dictionary produced by the evaluator. -/
structure Evaluation where
  scores : List (String × ℚ)
  key_strengths : List String
  key_concerns : List String
  weighted_total : ℚ := 0
  investment_recommendation : String := ""
deriving DecidableEq

/-- Clamp a score into [1, 10] (`max(1.0, min(10.0, score))`). -/
def clamp_score (q : ℚ) : ℚ := max 1 (min 10 q)

/-- The per-rubric score filling of `_parse_evaluation_response`: every
rubric name gets a score — the decoded value clamped when numeric, 5.0
when non-numeric or missing.  (Keys of the decoded dict that are not
rubric names are dropped here; the source keeps them in the dict but no
code path under verification ever reads them.) -/
def parse_scores (rubrics : List (String × ℚ)) (raw : List (String × ScoreJson)) :
    List (String × ℚ) :=
  rubrics.map (fun p =>
    match raw.find? (fun q => q.1 == p.1) with
    | some (_, .num q) => (p.1, clamp_score q)
    | some (_, .invalid) => (p.1, 5)
    | none => (p.1, 5))

/-- `IdeaEvaluator._parse_evaluation_response`: an unparseable response is
absorbed into a default evaluation scoring every rubric 5.0; a parsed
response is cleaned field by field. -/
def parse_evaluation_response (rubrics : List (String × ℚ)) :
    EvalResponse → Evaluation
  | .unparseable =>
      { scores := rubrics.map (fun p => (p.1, 5)),
        key_strengths := [],
        key_concerns := ["Failed to parse evaluation response"] }
  | .parsed r =>
      { scores := parse_scores rubrics (r.scores.getD []),
        key_strengths := r.key_strengths.getD [],
        key_concerns := r.key_concerns.getD [] }

/-- `IdeaEvaluator.evaluate_idea` from the LLM call onward: the call result
is the input (`Except.error` when `generate_content` raises, which the
method re-raises); on a returned text the response is parsed, the weighted
total computed and the recommendation attached. -/
def evaluate_idea (rubrics : List (String × ℚ)) (resp : Except String EvalResponse) :
    Except String Evaluation :=
  match resp with
  | .error e => .error e
  | .ok r =>
    let ev := parse_evaluation_response rubrics r
    let wt := calculate_weighted_total rubrics ev.scores
    .ok { ev with weighted_total := wt,
                  investment_recommendation := generate_recommendation wt }

/-- `DatabaseManager.update_evaluation`: writes the evaluation result
columns and sets `evaluation_status = 'completed'` in one statement. -/
def update_evaluation (item : Idea) (ev : Evaluation) : Idea :=
  { item with
    weighted_total_score := some ev.weighted_total,
    investment_recommendation := some ev.investment_recommendation,
    key_strengths := ev.key_strengths,
    key_concerns := ev.key_concerns,
    rubric_scores := ev.scores,
    evaluation_status := .completed }

/-- `EvaluationPipeline._evaluate_idea`: the unit of work for one item —
evaluate, then either persist the result with status `'completed'` and
report success, or set `evaluation_status = 'failed'` and report failure. -/
def evaluate_idea_step (item : Idea) (rubrics : List (String × ℚ))
    (resp : Except String EvalResponse) : Idea × Bool :=
  match evaluate_idea rubrics resp with
  | .ok ev => (update_evaluation item ev, true)
  | .error _ => ({ item with evaluation_status := .failed }, false)

/-- The 21 keys of `THEME_TAXONOMY` (`theme_definitions.py`). -/
def THEME_TAXONOMY_KEYS : List String :=
  ["AI & Machine Learning", "Cloud & Infrastructure",
   "Data Analytics & Visualization", "Cybersecurity", "Blockchain & Web3",
   "IoT & Edge Computing", "Mobile Applications", "Web Applications",
   "Automation & RPA", "Sustainability & Green Tech", "Healthcare & Wellness",
   "Education & Learning", "Finance & FinTech", "Supply Chain & Logistics",
   "Customer Experience", "HR & Workforce Management",
   "Collaboration & Productivity", "Gaming & Entertainment", "Social Impact",
   "Smart Cities", "Other"]

/-- The JSON object shape `TCSClassifier._parse_classification_response`
probes after a successful `json.loads`.  `none` for the string fields
models the key being absent (defaulted to `'Other'`); `none` for the list
fields models the key being absent or bound to a non-list (both replaced
with `[]`). -/
structure RawClassification where
  primary_theme : Option String
  secondary_themes : Option (List String)
  industry : Option String
  technologies : Option (List String)
deriving DecidableEq

/-- An LLM classification response text, abstracted to whether `json.loads`
succeeds. -/
inductive ClassificationResponse
  | unparseable
  | parsed (r : RawClassification)
deriving DecidableEq

/-- The cleaned classification dictionary produced by the classifier. -/
structure Classification where
  primary_theme : String
  secondary_themes : List String
  industry : String
  technologies : List String
deriving DecidableEq

/-- The default classification returned on a parse failure. -/
def default_classification : Classification :=
  { primary_theme := "Other", secondary_themes := [], industry := "Other",
    technologies := [] }

/-- `TCSClassifier._parse_classification_response`: parse failure yields the
default; otherwise a primary theme outside the taxonomy is downgraded to
`'Other'` and secondary themes outside the taxonomy are filtered out. -/
def parse_classification_response : ClassificationResponse → Classification
  | .unparseable => default_classification
  | .parsed r =>
    let p0 := r.primary_theme.getD "Other"
    { primary_theme := if THEME_TAXONOMY_KEYS.contains p0 then p0 else "Other",
      secondary_themes :=
        (r.secondary_themes.getD []).filter (fun t => THEME_TAXONOMY_KEYS.contains t),
      industry := r.industry.getD "Other",
      technologies := r.technologies.getD [] }

/-- `TCSClassifier.classify_idea` from the LLM call onward: a failed call
(`success` false, or a raising transport) is re-raised; a returned text is
parsed — parsing itself never raises. -/
def classify_idea (resp : Except String ClassificationResponse) :
    Except String Classification :=
  match resp with
  | .error e => .error e
  | .ok r => .ok (parse_classification_response r)

/-- `needle` is a leading segment of `hay` (character lists). -/
def leads_with : List Char → List Char → Bool
  | [], _ => true
  | _ :: _, [] => false
  | a :: as, b :: bs => a == b && leads_with as bs

/-- `needle` occurs contiguously somewhere in `hay` (character lists),
i.e. the Python `needle in hay` substring test. -/
def has_substr (needle : List Char) : List Char → Bool
  | [] => needle.isEmpty
  | c :: rest => leads_with needle (c :: rest) || has_substr needle rest

/-- Python `needle in hay` on strings. -/
def str_has (hay needle : String) : Bool := has_substr needle.data hay.data

/-- Python `str.lower()` (ASCII case folding suffices for the markers the
source checks). -/
def str_lower (s : String) : String := String.mk (s.data.map Char.toLower)

/-- The rate-limit test of `ClassificationPipeline._classify_idea`:
`'429' in error_str or 'quota' in error_str.lower() or
'rate limit' in error_str.lower()`. -/
def is_rate_limit_error (e : String) : Bool :=
  str_has e "429" || str_has (str_lower e) "quota" || str_has (str_lower e) "rate limit"

/-- `max_retries = 3` in `ClassificationPipeline._classify_idea`. -/
def max_retries : Nat := 3

/-- One classify call result: the classifier either returns a cleaned
classification or raises with a message. -/
inductive AttemptResult
  | ok (c : Classification)
  | err (msg : String)

/-- Result of the per-item classification unit of work: whether it reported
success, the backoff sleeps performed (in seconds, in order), and the row
as written back to the store. -/
structure ClassifyOutcome where
  success : Bool
  waits : List Nat
  item : Idea
deriving DecidableEq

/-- `DatabaseManager.update_classification`: writes the classification
columns and sets `classification_status = 'completed'` in one statement. -/
def update_classification (item : Idea) (c : Classification) : Idea :=
  { item with
    primary_theme := some c.primary_theme,
    secondary_themes := c.secondary_themes,
    industry := some c.industry,
    technologies := c.technologies,
    classification_status := .completed }

/-- The `for attempt in range(max_retries)` loop body of
`ClassificationPipeline._classify_idea`.  `calls n` is the result of the
classify call on 0-based attempt `n`; `fuel` is the number of loop
iterations left (`max_retries - attempt`, so the `fuel = 0` branch is
unreachable from `classify_idea_step`: on the last attempt every branch
returns).  On an exception whose text passes the rate-limit test with
attempts remaining, the worker sleeps `(attempt + 1) * 5` and retries;
otherwise the row is marked `'failed'` and failure is reported. -/
def classify_idea_loop (item : Idea) (calls : Nat → AttemptResult) :
    Nat → Nat → List Nat → ClassifyOutcome
  | _, 0, waits => { success := false, waits := waits, item := item }
  | attempt, fuel + 1, waits =>
    match calls attempt with
    | .ok c => { success := true, waits := waits, item := update_classification item c }
    | .err e =>
      if is_rate_limit_error e = true ∧ attempt < max_retries - 1 then
        classify_idea_loop item calls (attempt + 1) fuel (waits ++ [(attempt + 1) * 5])
      else
        { success := false, waits := waits,
          item := { item with classification_status := .failed } }

/-- `ClassificationPipeline._classify_idea`: run the retry loop from
attempt 0 with `max_retries` iterations available and no sleeps yet. -/
def classify_idea_step (item : Idea) (calls : Nat → AttemptResult) : ClassifyOutcome :=
  classify_idea_loop item calls 0 max_retries []

/-- The per-stage statistics dictionary
`{'processed': ..., 'succeeded': ..., 'failed': ...}`. -/
structure StageStats where
  processed : Nat
  succeeded : Nat
  failed : Nat
deriving DecidableEq

/-- The progress value `int((i / total) * 100)` computed after the `i`-th
completed item, modelled as exact floor division (the source truncates the
binary-float product toward zero). -/
def progress_of (i total : Nat) : Nat := 100 * i / total

/-- The shared `for i, future in enumerate(as_completed(futures), 1)` loop
of the three stage runners: `outcomes` lists the per-item results in
completion order (`true` = the unit of work reported success, `false` =
it reported failure or raised); returns the succeeded count, the failed
count, and the progress values passed to the callback in order.  `i0` is
the number of items already accounted for. -/
def stage_loop (total : Nat) : List Bool → Nat → Nat × Nat × List Nat
  | [], _ => (0, 0, [])
  | r :: rest, i0 =>
    let t := stage_loop total rest (i0 + 1)
    ((if r then t.1 + 1 else t.1),
     (if r then t.2.1 else t.2.1 + 1),
     progress_of (i0 + 1) total :: t.2.2)

/-- The shared stage-runner body (`ClassificationPipeline.run`,
`EvaluationPipeline.run` after setup, `run_extraction_stage`): zero
selected items short-circuits to zero stats with no callback; otherwise
the completion loop runs and `processed` is the selection count fixed
before fan-out. -/
def stage_run (ideas : List Idea) (outcomes : List Bool) : StageStats × List Nat :=
  if ideas.length = 0 then ({ processed := 0, succeeded := 0, failed := 0 }, [])
  else
    let t := stage_loop ideas.length outcomes 0
    ({ processed := ideas.length, succeeded := t.1, failed := t.2.1 }, t.2.2)

/-- The keyword parameters `IdeaEvaluator.init` accepts
(besides `self`): `rubrics` and `api_key`. -/
def accepted_init_params : List String := ["rubrics", "api_key"]

/-- The keyword arguments `EvaluationPipeline.run` passes when constructing
`IdeaEvaluator`. -/
def run_evaluator_kwargs : List String :=
  ["rubrics", "provider", "model_name", "model_settings"]

/-- Python keyword-call semantics: calling a function with a keyword not
among its accepted parameters raises `TypeError` naming the first such
keyword; otherwise the call proceeds. -/
def call_with_keywords (accepted supplied : List String) : Except String Unit :=
  match supplied.find? (fun k => !(accepted.contains k)) with
  | some k => .error ("TypeError: got an unexpected keyword argument " ++ k)
  | none => .ok ()

/-- `EvaluationPipeline.run`: fetch the active rubrics; an empty set logs a
warning and returns zero stats; otherwise `IdeaEvaluator` is constructed
with keyword arguments `rubrics`, `provider`, `model_name`,
`model_settings` — only after that are ideas selected and the shared
stage-runner loop run over the per-item outcomes. -/
def evaluation_pipeline_run (rubrics : List (String × ℚ)) (db : List Idea)
    (outcomes : List Bool) : Except String (StageStats × List Nat) :=
  if rubrics.isEmpty then .ok ({ processed := 0, succeeded := 0, failed := 0 }, [])
  else
    match call_with_keywords accepted_init_params run_evaluator_kwargs with
    | .error e => .error e
    | .ok _ => .ok (stage_run (get_ideas_for_evaluation db) outcomes)

/-- The dictionary returned by `ContentProcessor.process_idea_files` as
probed by `PipelineOrchestrator._extract_idea`: a status tag and the
extracted text, if any. -/
structure ExtractionResult where
  status : Option String
  extracted_content : Option String
deriving DecidableEq

/-- `DatabaseManager.update_extraction_status`: both the
`error_message`-present and `error_message`-absent branches run the same
`UPDATE ... SET extraction_status = %s` statement — only the status
column is written. -/
def update_extraction_status (item : Idea) (status : StageStatus)
    (error_message : Option String := none) : Idea :=
  match error_message with
  | some _ => { item with extraction_status := status }
  | none => { item with extraction_status := status }

/-- `PipelineOrchestrator._extract_idea`: the unit of work for one item —
process the idea's files (the result is the input; `Except.error` when
`process_idea_files` raises), then write a status: all three success
branches (`no_files`, content present, content absent) call
`update_extraction_status(idea_id, status='completed')`, the exception
branch calls it with `'failed'`. -/
def extract_idea_step (item : Idea) (result : Except String ExtractionResult) :
    Idea × Bool :=
  match result with
  | .error _ => (update_extraction_status item .failed, false)
  | .ok r =>
    if r.status = some "no_files" then (update_extraction_status item .completed, true)
    else if r.extracted_content.isSome then
      (update_extraction_status item .completed, true)
    else (update_extraction_status item .completed, true)

/-! Concrete fixtures used by counterexamples and witnesses. -/

/-- A work item whose extraction previously failed. -/
def failed_extraction_idea : Idea := { id := 1, extraction_status := .failed }

/-- A work item ready for evaluation. -/
def eval_ready_idea : Idea :=
  { id := 5, extraction_status := .completed, classification_status := .completed }

/-- A three-item store, all rows ready for classification. -/
def three_ideas : List Idea :=
  [{ id := 1, extraction_status := .completed },
   { id := 2, extraction_status := .completed },
   { id := 3, extraction_status := .completed }]

/-! Helper lemmas shared by the claim theorems. -/

/-- With a non-empty rubric set, `EvaluationPipeline.run` reaches the
`IdeaEvaluator` construction and fails there, before selecting ideas. -/
lemma evaluation_run_error (rubrics : List (String × ℚ)) (db : List Idea)
    (outcomes : List Bool) (h : rubrics ≠ []) :
    evaluation_pipeline_run rubrics db outcomes =
      .error "TypeError: got an unexpected keyword argument provider" := by
  cases rubrics with
  | nil => exact absurd rfl h
  | cons a l => rfl

/-- The stage loop accounts every completed future in exactly one of the
two counters. -/
lemma stage_loop_counts (total : Nat) (outcomes : List Bool) (i0 : Nat) :
    (stage_loop total outcomes i0).1 + (stage_loop total outcomes i0).2.1 =
      outcomes.length := by
  induction outcomes generalizing i0 with
  | nil => rfl
  | cons r rest ih =>
    have h := ih (i0 + 1)
    simp only [stage_loop, List.length_cons]
    cases r <;> simp <;> omega

/-- The progress values emitted by the stage loop, in closed form. -/
lemma stage_loop_progress (total : Nat) (outcomes : List Bool) (i0 : Nat) :
    (stage_loop total outcomes i0).2.2 =
      (List.range outcomes.length).map (fun j => progress_of (i0 + j + 1) total) := by
  induction outcomes generalizing i0 with
  | nil => rfl
  | cons r rest ih =>
    simp only [stage_loop, List.length_cons, List.range_succ_eq_map, List.map_cons,
      List.map_map]
    refine congrArg₂ List.cons rfl ?_
    rw [ih (i0 + 1)]
    refine List.map_congr_left ?_
    intro j hj
    simp only [Function.comp]
    congr 1
    omega

/-- Floor-division progress hits 100 exactly at the last item. -/
lemma progress_of_eq_100_iff (k n : Nat) (hn : 0 < n) (hk : k ≤ n) :
    progress_of k n = 100 ↔ k = n := by
  unfold progress_of
  constructor
  · intro h
    by_contra hne
    have hkn : k < n := lt_of_le_of_ne hk hne
    have h3 : 100 * k / n < 100 := (Nat.div_lt_iff_lt_mul hn).mpr (by omega)
    omega
  · rintro rfl
    exact Nat.mul_div_cancel 100 hn

/-- Looking a key up in an association list whose values are all 5 gives 5,
whatever the key (the default is also 5). -/
lemma dict_getD_all_const (L : List (String × ℚ)) (hL : ∀ p ∈ L, p.2 = 5)
    (k : String) : dict_getD L k 5 = 5 := by
  unfold dict_getD
  cases hfind : L.find? (fun p => p.1 == k) with
  | none => rfl
  | some p => exact hL p (List.mem_of_find?_eq_some hfind)

lemma dict_getD_map_const (xs : List (String × ℚ)) (k : String) :
    dict_getD (xs.map (fun p => (p.1, (5 : ℚ)))) k 5 = 5 := by
  refine dict_getD_all_const _ ?_ k
  intro p hp
  rcases List.mem_map.mp hp with ⟨q, _, rfl⟩
  rfl

/-- Weighted sum over an all-5 score table. -/
lemma sum_const_five (ys : List (String × ℚ)) (L : List (String × ℚ))
    (hL : ∀ k, dict_getD L k 5 = 5) :
    (ys.map (fun p => dict_getD L p.1 5 * p.2)).sum = 5 * (ys.map Prod.snd).sum := by
  induction ys with
  | nil => simp
  | cons a l ih =>
    simp only [List.map_cons, List.sum_cons]
    rw [ih, hL]
    ring

/-- The weighted total of the all-5 default evaluation is 5 whenever the
total weight is non-zero. -/
lemma weighted_total_const_five (rubrics : List (String × ℚ))
    (h : (rubrics.map Prod.snd).sum ≠ 0) :
    calculate_weighted_total rubrics (rubrics.map (fun p => (p.1, 5))) = 5 := by
  unfold calculate_weighted_total
  rw [if_neg h, sum_const_five _ _ (dict_getD_map_const rubrics),
    mul_div_assoc, div_self h, mul_one]

/-! Claim theorems. -/

/-- Claim C1: for every non-empty active rubric set, `EvaluationPipeline.run`
raises during setup — it constructs `IdeaEvaluator` with keyword arguments
`provider`, `model_name`, `model_settings` that `IdeaEvaluator.init` does
not accept, so a `TypeError` escapes before any idea is selected or
evaluated (the result does not depend on the store or the outcomes). -/
theorem evaluation_run_fails_at_evaluator_construction
    (rubrics : List (String × ℚ)) (db : List Idea) (outcomes : List Bool)
    (h : rubrics ≠ []) :
    evaluation_pipeline_run rubrics db outcomes =
      .error "TypeError: got an unexpected keyword argument provider" :=
  evaluation_run_error rubrics db outcomes h

/-- Witness for C1: a singleton rubric set fails at construction even over
an empty store. -/
theorem evaluation_run_fails_at_evaluator_construction_witness :
    evaluation_pipeline_run [("Novelty", 50)] [] [] =
      .error "TypeError: got an unexpected keyword argument provider" :=
  evaluation_run_fails_at_evaluator_construction [("Novelty", 50)] [] []
    (by simp)

/-- Counterexample to claim C2: with an empty active rubric set and an
evaluation-ready item in the store, `EvaluationPipeline.run` does not raise —
it returns the normal zero statistics dictionary. -/
theorem empty_rubrics_no_raise_counterexample :
    evaluation_pipeline_run [] [eval_ready_idea] [true] =
      .ok ({ processed := 0, succeeded := 0, failed := 0 }, []) := rfl

/-- Claim C2 as amended: if the active rubric set is empty, the evaluation
stage logs a warning and returns the normal `StageStats` result
`{processed: 0, succeeded: 0, failed: 0}` without raising and without
attempting any per-item processing (no idea is selected, no callback runs). -/
theorem empty_rubrics_returns_zero_stats (db : List Idea) (outcomes : List Bool) :
    evaluation_pipeline_run [] db outcomes =
      .ok ({ processed := 0, succeeded := 0, failed := 0 }, []) := rfl

/-- Counterexample to claim C3: an item whose `extraction_status` is
`'failed'` is in the spec's eligibility set {unset, pending, failed} for its
own stage, yet `get_ideas_for_extraction` does not select it. -/
theorem failed_extraction_not_reselected_counterexample :
    get_ideas_for_extraction [failed_extraction_idea] = [] ∧
      spec_own_eligible failed_extraction_idea.extraction_status = true :=
  ⟨rfl, rfl⟩

/-- Claim C3 as amended: classification and evaluation select exactly the
items whose upstream stage is `'completed'` and whose own stage status is in
{unset, pending, failed} (so a failed item is re-selected); extraction — the
first stage, with no upstream constraint — selects exactly the items whose
own status is in {unset, pending}, and does NOT re-select `'failed'` items. -/
theorem stage_selection_characterization (db : List Idea) (i : Idea) :
    (i ∈ get_ideas_for_extraction db ↔
      i ∈ db ∧ (i.extraction_status = .unset ∨ i.extraction_status = .pending)) ∧
    (i ∈ get_ideas_for_classification db ↔
      i ∈ db ∧ i.extraction_status = .completed ∧
        spec_own_eligible i.classification_status = true) ∧
    (i ∈ get_ideas_for_evaluation db ↔
      i ∈ db ∧ i.classification_status = .completed ∧
        spec_own_eligible i.evaluation_status = true) := by
  refine ⟨?_, ?_, ?_⟩ <;>
    simp [get_ideas_for_extraction, get_ideas_for_classification,
      get_ideas_for_evaluation, extraction_where, classification_where,
      evaluation_where, spec_own_eligible, List.mem_filter, Bool.or_eq_true,
      Bool.and_eq_true, beq_iff_eq, and_assoc]

/-- Counterexample to claim C4: an evaluation whose LLM response is not
parseable is NOT a hard failure — the unit of work reports success and the
item is marked `'completed'`, not `'failed'`. -/
theorem unparseable_evaluation_defaults_counterexample :
    (evaluate_idea_step eval_ready_idea [("A", 1)] (.ok .unparseable)).2 = true ∧
      ((evaluate_idea_step eval_ready_idea [("A", 1)] (.ok .unparseable)).1).evaluation_status
        = .completed :=
  ⟨rfl, rfl⟩

/-- Claim C4 as amended: an unparseable LLM response is absorbed into a
default evaluation — every rubric scored 5.0, weighted total 5.0 when the
total weight is non-zero — and the item is marked `'completed'` with
success reported; only a failure of the LLM call itself marks the item
`'failed'`. -/
theorem unparseable_evaluation_absorbed (item : Idea) (rubrics : List (String × ℚ)) :
    (evaluate_idea_step item rubrics (.ok .unparseable)).2 = true ∧
    ((evaluate_idea_step item rubrics (.ok .unparseable)).1).evaluation_status =
      .completed ∧
    ((evaluate_idea_step item rubrics (.ok .unparseable)).1).rubric_scores =
      rubrics.map (fun p => (p.1, 5)) ∧
    ((rubrics.map Prod.snd).sum ≠ 0 →
      ((evaluate_idea_step item rubrics (.ok .unparseable)).1).weighted_total_score =
        some 5) ∧
    (∀ e, evaluate_idea_step item rubrics (.error e) =
      ({ item with evaluation_status := .failed }, false)) := by
  refine ⟨rfl, rfl, rfl, ?_, fun e => rfl⟩
  intro h
  show some (calculate_weighted_total rubrics
    (parse_evaluation_response rubrics .unparseable).scores) = some 5
  rw [show (parse_evaluation_response rubrics .unparseable).scores =
    rubrics.map (fun p => (p.1, 5)) from rfl, weighted_total_const_five rubrics h]

/-- Witness for C4 (amended): one rubric of weight 1, unparseable response —
success, completed, score 5.0, weighted total 5.0; and an LLM call error
marks the item failed. -/
theorem unparseable_evaluation_absorbed_witness :
    (evaluate_idea_step eval_ready_idea [("A", 1)] (.ok .unparseable)).2 = true ∧
    ((evaluate_idea_step eval_ready_idea [("A", 1)] (.ok .unparseable)).1).evaluation_status
      = .completed ∧
    ((evaluate_idea_step eval_ready_idea [("A", 1)] (.ok .unparseable)).1).rubric_scores
      = [("A", 1)].map (fun p => (p.1, 5)) ∧
    (([("A", (1 : ℚ))].map Prod.snd).sum ≠ 0 →
      ((evaluate_idea_step eval_ready_idea [("A", 1)] (.ok .unparseable)).1).weighted_total_score
        = some 5) ∧
    (∀ e, evaluate_idea_step eval_ready_idea [("A", 1)] (.error e) =
      ({ eval_ready_idea with evaluation_status := .failed }, false)) :=
  unparseable_evaluation_absorbed eval_ready_idea [("A", 1)]

/-- Claim C5, the code side: on a successful extraction unit of work —
including one whose transform produced extracted content — only the status
column is written: `update_extraction_status` never carries the content, so
the row's `extracted_files_content` is unchanged when the item is marked
`'completed'`.  (The source itself notes the gap: "update_extraction_status
needs to be updated to accept these params".) -/
theorem extraction_content_never_persisted :
    (∀ (item : Idea) (r : ExtractionResult) (c : String),
      r.extracted_content = some c →
      (extract_idea_step item (.ok r)).2 = true ∧
      ((extract_idea_step item (.ok r)).1).extraction_status = .completed ∧
      ((extract_idea_step item (.ok r)).1).extracted_files_content =
        item.extracted_files_content) ∧
    (∀ (item : Idea) (status : StageStatus) (msg : Option String),
      (update_extraction_status item status msg).extracted_files_content =
        item.extracted_files_content) := by
  constructor
  · intro item r c _
    have hstep : extract_idea_step item (.ok r) =
        (update_extraction_status item .completed, true) := by
      show (if r.status = some "no_files" then (update_extraction_status item .completed, true)
        else if r.extracted_content.isSome then (update_extraction_status item .completed, true)
        else (update_extraction_status item .completed, true)) = _
      split
      · rfl
      · split <;> rfl
    rw [hstep]
    exact ⟨rfl, rfl, rfl⟩
  · intro item status msg
    cases msg <;> rfl

/-- Witness for C5: an extraction result with content "prototype notes" on
a fresh item — marked completed, content column untouched. -/
theorem extraction_content_never_persisted_witness :
    ((extract_idea_step { id := 9 } (.ok { status := none, extracted_content := some "prototype notes" })).2 = true ∧
     ((extract_idea_step { id := 9 } (.ok { status := none, extracted_content := some "prototype notes" })).1).extraction_status = .completed ∧
     ((extract_idea_step { id := 9 } (.ok { status := none, extracted_content := some "prototype notes" })).1).extracted_files_content =
       ({ id := 9 } : Idea).extracted_files_content) ∧
    (update_extraction_status { id := 9 } .completed none).extracted_files_content =
      ({ id := 9 } : Idea).extracted_files_content :=
  ⟨extraction_content_never_persisted.1 { id := 9 }
      { status := none, extracted_content := some "prototype notes" }
      "prototype notes" rfl,
   extraction_content_never_persisted.2 { id := 9 } .completed none⟩

/-- Claim C7: the weighted total is the weight-weighted mean of the rubric
scores (missing scores defaulting to 5.0), 0.0 on zero total weight, and
the recommendation thresholds are `≥ 7.5 → go`, `5.5 ≤ w < 7.5 →
consider-with-mitigations`, `< 5.5 → no-go`, with both boundaries landing
in the higher tier; rubrics {A:50, B:50} with scores {A:8, B:6} give 7.0
and "consider-with-mitigations". -/
theorem evaluator_weighted_total_thresholds :
    (∀ rubrics scores : List (String × ℚ),
      ((rubrics.map Prod.snd).sum = 0 → calculate_weighted_total rubrics scores = 0) ∧
      ((rubrics.map Prod.snd).sum ≠ 0 →
        calculate_weighted_total rubrics scores * (rubrics.map Prod.snd).sum =
          (rubrics.map (fun p => dict_getD scores p.1 5 * p.2)).sum)) ∧
    (∀ w : ℚ,
      (7.5 ≤ w → generate_recommendation w = "go") ∧
      (5.5 ≤ w → w < 7.5 → generate_recommendation w = "consider-with-mitigations") ∧
      (w < 5.5 → generate_recommendation w = "no-go")) ∧
    generate_recommendation 7.5 = "go" ∧
    generate_recommendation 5.5 = "consider-with-mitigations" ∧
    calculate_weighted_total [("A", 50), ("B", 50)] [("A", 8), ("B", 6)] = 7 ∧
    generate_recommendation
      (calculate_weighted_total [("A", 50), ("B", 50)] [("A", 8), ("B", 6)]) =
      "consider-with-mitigations" := by
  have hex : calculate_weighted_total [("A", 50), ("B", 50)] [("A", 8), ("B", 6)] = 7 := by
    simp [calculate_weighted_total, dict_getD, List.find?]
    norm_num
  refine ⟨?_, ?_, ?_, ?_, hex, ?_⟩
  · intro rubrics scores
    constructor
    · intro h
      unfold calculate_weighted_total
      rw [if_pos h]
    · intro h
      unfold calculate_weighted_total
      rw [if_neg h, div_mul_cancel₀ _ h]
  · intro w
    refine ⟨fun h => ?_, fun h1 h2 => ?_, fun h => ?_⟩
    · unfold generate_recommendation
      rw [if_pos (by exact h)]
    · unfold generate_recommendation
      rw [if_neg (by simpa using not_le.mpr h2), if_pos (by exact h1)]
    · unfold generate_recommendation
      rw [if_neg (by simp; linarith), if_neg (by simpa using not_le.mpr h)]
  · unfold generate_recommendation
    norm_num
  · unfold generate_recommendation
    norm_num
  · rw [hex]
    unfold generate_recommendation
    norm_num

/-- Witness for C7: the threshold implications at 8.0 (go), 7.0
(consider-with-mitigations) and 5.0 (no-go), and the non-zero-weight
product identity at the {A:50, B:50} example. -/
theorem evaluator_weighted_total_thresholds_witness :
    generate_recommendation 8 = "go" ∧
    generate_recommendation 7 = "consider-with-mitigations" ∧
    generate_recommendation 5 = "no-go" ∧
    calculate_weighted_total [("A", 50), ("B", 50)] [("A", 8), ("B", 6)] *
      ([(("A" : String), (50 : ℚ)), ("B", 50)].map Prod.snd).sum =
      ([(("A" : String), (50 : ℚ)), ("B", 50)].map
        (fun p => dict_getD [("A", 8), ("B", 6)] p.1 5 * p.2)).sum :=
  ⟨(evaluator_weighted_total_thresholds.2.1 8).1 (by norm_num),
   (evaluator_weighted_total_thresholds.2.1 7).2.1 (by norm_num) (by norm_num),
   (evaluator_weighted_total_thresholds.2.1 5).2.2 (by norm_num),
   (evaluator_weighted_total_thresholds.1 [("A", 50), ("B", 50)] [("A", 8), ("B", 6)]).2
     (by norm_num)⟩

/-- One unfolding step of the retry loop with iterations remaining. -/
lemma classify_loop_fuel_succ (item : Idea) (calls : Nat → AttemptResult)
    (attempt fuel : Nat) (waits : List Nat) :
    classify_idea_loop item calls attempt (fuel + 1) waits =
      match calls attempt with
      | .ok c => { success := true, waits := waits, item := update_classification item c }
      | .err e =>
        if is_rate_limit_error e = true ∧ attempt < max_retries - 1 then
          classify_idea_loop item calls (attempt + 1) fuel (waits ++ [(attempt + 1) * 5])
        else
          { success := false, waits := waits,
            item := { item with classification_status := .failed } } := rfl

/-- Claim C6: classification retries only rate-limit-class errors, up to 3
attempts total with synchronous waits of 5 then 10 between attempts —
rate-limit failures on attempts 1 and 2 followed by success on attempt 3
yield item success (row written `'completed'`, no failure); three
rate-limit failures mark the item `'failed'`; a non-rate-limit error marks
it `'failed'` immediately with no retry and no wait. -/
theorem classification_rate_limit_retry :
    (∀ (item : Idea) (calls : Nat → AttemptResult) (e0 e1 : String)
      (c : Classification),
      calls 0 = .err e0 → calls 1 = .err e1 → calls 2 = .ok c →
      is_rate_limit_error e0 = true → is_rate_limit_error e1 = true →
      classify_idea_step item calls =
        { success := true, waits := [5, 10], item := update_classification item c }) ∧
    (∀ (item : Idea) (calls : Nat → AttemptResult) (e0 e1 e2 : String),
      calls 0 = .err e0 → calls 1 = .err e1 → calls 2 = .err e2 →
      is_rate_limit_error e0 = true → is_rate_limit_error e1 = true →
      classify_idea_step item calls =
        { success := false, waits := [5, 10],
          item := { item with classification_status := .failed } }) ∧
    (∀ (item : Idea) (calls : Nat → AttemptResult) (e0 : String),
      calls 0 = .err e0 → is_rate_limit_error e0 = false →
      classify_idea_step item calls =
        { success := false, waits := [],
          item := { item with classification_status := .failed } }) := by
  refine ⟨?_, ?_, ?_⟩
  · intro item calls e0 e1 c h0 h1 h2 hr0 hr1
    show classify_idea_loop item calls 0 (2 + 1) [] = _
    rw [classify_loop_fuel_succ, h0]
    dsimp only
    rw [if_pos ⟨hr0, by norm_num [max_retries]⟩]
    show classify_idea_loop item calls 1 (1 + 1) _ = _
    rw [classify_loop_fuel_succ, h1]
    dsimp only
    rw [if_pos ⟨hr1, by norm_num [max_retries]⟩]
    show classify_idea_loop item calls 2 (0 + 1) _ = _
    rw [classify_loop_fuel_succ, h2]
    rfl
  · intro item calls e0 e1 e2 h0 h1 h2 hr0 hr1
    show classify_idea_loop item calls 0 (2 + 1) [] = _
    rw [classify_loop_fuel_succ, h0]
    dsimp only
    rw [if_pos ⟨hr0, by norm_num [max_retries]⟩]
    show classify_idea_loop item calls 1 (1 + 1) _ = _
    rw [classify_loop_fuel_succ, h1]
    dsimp only
    rw [if_pos ⟨hr1, by norm_num [max_retries]⟩]
    show classify_idea_loop item calls 2 (0 + 1) _ = _
    rw [classify_loop_fuel_succ, h2]
    dsimp only
    rw [if_neg (by rintro ⟨-, hlt⟩; norm_num [max_retries] at hlt)]
    rfl
  · intro item calls e0 h0 hr0
    show classify_idea_loop item calls 0 (2 + 1) [] = _
    rw [classify_loop_fuel_succ, h0]
    dsimp only
    rw [if_neg (by rintro ⟨htrue, -⟩; rw [hr0] at htrue; exact Bool.false_ne_true htrue)]

/-- The classify-call schedule used by the C6 witness: simulated 429 on
attempt 1, quota error on attempt 2, success on attempt 3. -/
def rate_limited_calls : Nat → AttemptResult := fun n =>
  if n = 0 then .err "HTTP 429 Too Many Requests"
  else if n = 1 then .err "Quota exceeded, rate limit hit"
  else .ok default_classification

/-- Witness for C6: the schedule above yields success with waits 5 then 10
and the classification written to the row. -/
theorem classification_rate_limit_retry_witness :
    classify_idea_step eval_ready_idea rate_limited_calls =
      { success := true, waits := [5, 10],
        item := update_classification eval_ready_idea default_classification } :=
  classification_rate_limit_retry.1 eval_ready_idea rate_limited_calls
    "HTTP 429 Too Many Requests" "Quota exceeded, rate limit hit"
    default_classification rfl rfl rfl (by decide) (by decide)

/-- Claim C8: a primary theme outside the fixed taxonomy is downgraded to
"Other"; a secondary theme outside the taxonomy is dropped (membership in
the cleaned secondary list is exactly raw membership plus taxonomy
membership, so nothing is downgraded into the list); an unparseable
response yields the default classification without raising; and only a
failure of the LLM call itself propagates (a returned text always parses
to a result). -/
theorem classifier_taxonomy_validation :
    (∀ r : RawClassification,
      THEME_TAXONOMY_KEYS.contains (r.primary_theme.getD "Other") = false →
      (parse_classification_response (.parsed r)).primary_theme = "Other") ∧
    (∀ (r : RawClassification) (t : String),
      t ∈ (parse_classification_response (.parsed r)).secondary_themes ↔
        t ∈ r.secondary_themes.getD [] ∧ THEME_TAXONOMY_KEYS.contains t = true) ∧
    parse_classification_response .unparseable = default_classification ∧
    (∀ e, classify_idea (.error e) = .error e) ∧
    (∀ r, classify_idea (.ok r) = .ok (parse_classification_response r)) := by
  refine ⟨?_, ?_, rfl, fun e => rfl, fun r => rfl⟩
  · intro r h
    show (if THEME_TAXONOMY_KEYS.contains (r.primary_theme.getD "Other") then
        r.primary_theme.getD "Other" else "Other") = "Other"
    rw [if_neg (by rw [h]; exact Bool.false_ne_true)]
  · intro r t
    simp [parse_classification_response, List.mem_filter]

/-- Witness for C8: a response naming "Quantum Tech" (not in the taxonomy)
as primary is downgraded to "Other". -/
theorem classifier_taxonomy_validation_witness :
    (parse_classification_response
      (.parsed { primary_theme := some "Quantum Tech",
                 secondary_themes := some ["Quantum Tech", "Smart Cities"],
                 industry := some "Other",
                 technologies := some [] })).primary_theme = "Other" :=
  classifier_taxonomy_validation.1
    { primary_theme := some "Quantum Tech",
      secondary_themes := some ["Quantum Tech", "Smart Cities"],
      industry := some "Other", technologies := some [] }
    (by decide)

/-- Counterexample to claim C9: with 3 items, after the second completion
the code reports `int((2 / 3) * 100) = 66`, while `round(100 * 2 / 3) = 67`
— the callback truncates, it does not round. -/
theorem progress_truncation_counterexample :
    (stage_run three_ideas [true, true, true]).2 = [33, 66, 100] ∧
      round ((100 * (2 : ℚ)) / 3) = 67 := by
  refine ⟨rfl, ?_⟩
  rw [round_eq]
  norm_num [Int.floor_eq_iff]

/-- Claim C9 as amended: during a stage run over n > 0 selected items the
callback is invoked after each completion with
`progress = floor(100 * completed_count / n)` (Python truncates
`(i / total) * 100`), and that value reaches 100 exactly when all n items
are accounted for. -/
theorem progress_floor_semantics (ideas : List Idea) (outcomes : List Bool)
    (hne : ideas ≠ []) (_hlen : outcomes.length = ideas.length) :
    (stage_run ideas outcomes).2 =
      (List.range outcomes.length).map (fun j => progress_of (j + 1) ideas.length) ∧
    (∀ j : Nat, j + 1 ≤ ideas.length →
      (progress_of (j + 1) ideas.length = 100 ↔ j + 1 = ideas.length)) := by
  have hpos : 0 < ideas.length := List.length_pos.mpr hne
  constructor
  · unfold stage_run
    rw [if_neg (by omega)]
    dsimp only
    rw [stage_loop_progress]
    refine List.map_congr_left ?_
    intro j _
    have : 0 + j + 1 = j + 1 := by omega
    rw [this]
  · intro j hj
    exact progress_of_eq_100_iff (j + 1) ideas.length hpos hj

/-- Witness for C9 (amended): a 3-item run emits the three floor values and
only the last one is 100. -/
theorem progress_floor_semantics_witness :
    ((stage_run three_ideas [true, false, true]).2 =
      (List.range 3).map (fun j => progress_of (j + 1) 3)) ∧
    (∀ j : Nat, j + 1 ≤ 3 → (progress_of (j + 1) 3 = 100 ↔ j + 1 = 3)) :=
  progress_floor_semantics three_ideas [true, false, true]
    (by simp [three_ideas]) rfl

/-- Claim C10: every completed stage run returns stats with
`processed = succeeded + failed`, where `processed` is the number of items
selected before fan-out (one outcome per selected item) — and every normal
return of the evaluation runner satisfies the same identity. -/
theorem stage_stats_processed_additivity :
    (∀ (ideas : List Idea) (outcomes : List Bool),
      outcomes.length = ideas.length →
      ((stage_run ideas outcomes).1).processed =
        ((stage_run ideas outcomes).1).succeeded +
          ((stage_run ideas outcomes).1).failed) ∧
    (∀ (rubrics : List (String × ℚ)) (db : List Idea) (outcomes : List Bool)
      (st : StageStats) (ps : List Nat),
      evaluation_pipeline_run rubrics db outcomes = .ok (st, ps) →
      st.processed = st.succeeded + st.failed) := by
  constructor
  · intro ideas outcomes hlen
    unfold stage_run
    by_cases h : ideas.length = 0
    · rw [if_pos h]
      rfl
    · rw [if_neg h]
      dsimp only
      have hc := stage_loop_counts ideas.length outcomes 0
      omega
  · intro rubrics db outcomes st ps h
    cases rubrics with
    | nil =>
      have hrun : evaluation_pipeline_run [] db outcomes =
          .ok ({ processed := 0, succeeded := 0, failed := 0 }, []) := rfl
      rw [hrun] at h
      injection h with hpair
      injection hpair with h1 _
      rw [← h1]
      rfl
    | cons a l =>
      rw [evaluation_run_error (a :: l) db outcomes (by simp)] at h
      exact Except.noConfusion h

/-- Witness for C10: the 3-item run with one failure gives
processed = 3 = 2 + 1. -/
theorem stage_stats_processed_additivity_witness :
    ((stage_run three_ideas [true, false, true]).1).processed =
      ((stage_run three_ideas [true, false, true]).1).succeeded +
        ((stage_run three_ideas [true, false, true]).1).failed :=
  stage_stats_processed_additivity.1 three_ideas [true, false, true] rfl

end HackPipe
